import Mathlib

/-!
# Remmina Plugin FOLDER: embedding of `src/remmina_plugin.c`

The plugin is glue between the Remmina plugin host and GLib's process spawn
call.  Everything the plugin calls is external (the host's service table and
GLib), so the embedding is a function of those collaborators and produces

* the ordered trace of the external calls made (with their arguments), and
* either the returned `gboolean` or a fault (a read through a NULL pointer).

C pointers to strings are `Option String` (`none` is NULL).
-/

namespace RemminaPluginFolder

/-! ## plugin_config.h -/

/-- The macro `PLUGIN_NAME` of plugin_config.h. -/
def PLUGIN_NAME : String := "FOLDER"

/-- The macro `PLUGIN_DESCRIPTION` of plugin_config.h. -/
def PLUGIN_DESCRIPTION : String := "FOLDER - Open a folder"

/-- The macro `PLUGIN_VERSION` of plugin_config.h. -/
def PLUGIN_VERSION : String := "1.2.0.0"

/-- The macro `PLUGIN_APPICON` of plugin_config.h. -/
def PLUGIN_APPICON : String := "remmina-folder"

/-! ## C and GLib base types -/

/-- GLib's `gboolean` is a `gint`; a condition holds when it is not zero. -/
abbrev gboolean := Int

/-- GLib's `TRUE`. -/
def TRUE : gboolean := 1

/-- GLib's `FALSE`. -/
def FALSE : gboolean := 0

/-- A nullable C string (`gchar *`, `const gchar *`): `none` is NULL. -/
abbrev gchar_ptr := Option String

/-- The host's handle of a connection widget (`RemminaProtocolWidget *`). -/
abbrev RemminaProtocolWidget := Nat

/-- The host's handle of a connection profile (`RemminaFile *`). -/
abbrev RemminaFile := Nat

/-- GLib's `GError`: the plugin reads only `message`. -/
structure GError where
  domain : Nat
  code : Int
  message : String
  deriving DecidableEq, Repr

/-- The flag `G_SPAWN_SEARCH_PATH` of GLib's `GSpawnFlags` (`1 << 2`). -/
def G_SPAWN_SEARCH_PATH : Nat := 4

/-- What one `g_spawn_async` call leaves behind: its return value, and the
two out-parameters `&pid` and `&error`.  `error` starts as NULL in the caller
(line 64) and stays `none` when the call does not set it. -/
structure SpawnReturn where
  ret : gboolean
  child_pid : Option Nat
  error : Option GError
  deriving DecidableEq, Repr

/-- The arguments of one `g_spawn_async` call that are not the constant NULL
(`child_setup` and `user_data` are NULL at the only call site).  `argv` is the
array as the callee can read it: the slots written, terminator included. -/
structure SpawnArgs where
  working_directory : gchar_ptr
  argv : List gchar_ptr
  envp : Option (List String)
  flags : Nat
  deriving DecidableEq, Repr

/-- GLib as the plugin uses it: the spawn call is the operating system's
answer to a request. -/
structure GLib where
  g_spawn_async : SpawnArgs → SpawnReturn

/-- The strings of a NULL-terminated vector: the elements before the first
NULL. -/
def argv_strings : List gchar_ptr → List String
  | [] => []
  | none :: _ => []
  | some s :: rest => s :: argv_strings rest

/-- GLib's `g_strdup`: a copy of the string, and NULL for NULL. -/
def g_strdup (str : gchar_ptr) : gchar_ptr :=
  match str with
  | none => none
  | some s => some s

/-! ## The launchers list (lines 25-33) -/

/-- The static array `launchers_list` (lines 26-33), terminator included. -/
def launchers_list : List gchar_ptr :=
  [ some "xdg-open", some "Automatically detected",
    some "gnome-open", some "Open for GNOME",
    some "nautilus", some "Nautilus",
    some "pcmanfm", some "PCManFM",
    some "dolphin", some "Dolphin Browser",
    none ]

/-- One row of a launcher table. -/
structure LauncherEntry where
  identifier : String
  display_name : String
  deriving DecidableEq, Repr

/-- Reading of a key/value array as consecutive {identifier, display name}
pairs up to the NULL terminator, the way the list of a
`REMMINA_PROTOCOL_SETTING_TYPE_SELECT` setting is consumed.  The result is
`none` when the terminator is missing or when an identifier is followed by
NULL instead of its display name (an incomplete pair). -/
def launcher_entries : List gchar_ptr → Option (List LauncherEntry)
  | [] => none
  | none :: _ => some []
  | [some _] => none
  | some _ :: none :: _ => none
  | some k :: some v :: rest =>
    match launcher_entries rest with
    | none => none
    | some es => some (⟨k, v⟩ :: es)

/-! ## The plugin definition (lines 103-138) -/

/-- The setting types used in `remmina_plugin_folder_basic_settings`. -/
inductive RemminaProtocolSettingType
  | REMMINA_PROTOCOL_SETTING_TYPE_END
  | REMMINA_PROTOCOL_SETTING_TYPE_TEXT
  | REMMINA_PROTOCOL_SETTING_TYPE_SELECT
  deriving DecidableEq, Repr

/-- One `RemminaProtocolSetting` row: type, name, label, compact flag, the
values of a select or combo, and the tooltip. -/
structure RemminaProtocolSetting where
  type : RemminaProtocolSettingType
  name : gchar_ptr
  label : gchar_ptr
  compact : gboolean
  opt1 : Option (List gchar_ptr)
  opt2 : gchar_ptr
  deriving DecidableEq, Repr

/-- The array `remmina_plugin_folder_basic_settings` (lines 112-116). -/
def remmina_plugin_folder_basic_settings : List RemminaProtocolSetting :=
  [ ⟨RemminaProtocolSettingType.REMMINA_PROTOCOL_SETTING_TYPE_TEXT,
      some "server", some "Startup program", FALSE, none, none⟩,
    ⟨RemminaProtocolSettingType.REMMINA_PROTOCOL_SETTING_TYPE_SELECT,
      some "launcher", some "Launcher", FALSE, some launchers_list, none⟩,
    ⟨RemminaProtocolSettingType.REMMINA_PROTOCOL_SETTING_TYPE_END,
      none, none, FALSE, none, none⟩ ]

/-- The static functions of remmina_plugin.c that can fill a callback slot
of the plugin definition. -/
inductive Callback
  | remmina_plugin_folder_init
  | remmina_plugin_folder_open_connection
  | remmina_plugin_folder_close_connection
  deriving DecidableEq, Repr

/-- The plugin type constant used in the definition. -/
inductive RemminaPluginType
  | REMMINA_PLUGIN_TYPE_PROTOCOL
  deriving DecidableEq, Repr

/-- The SSH setting constant used in the definition. -/
inductive RemminaProtocolSSHSetting
  | REMMINA_PROTOCOL_SSH_SETTING_NONE
  deriving DecidableEq, Repr

/-- The struct `RemminaProtocolPlugin`, field by field in the order of the
initializer at lines 119-138.  A callback slot is NULL or one of the
plugin's functions. -/
structure RemminaProtocolPlugin where
  type : RemminaPluginType
  name : String
  description : String
  domain : String
  version : String
  icon_name : String
  icon_name_ssh : String
  basic_settings : Option (List RemminaProtocolSetting)
  advanced_settings : Option (List RemminaProtocolSetting)
  ssh_setting : RemminaProtocolSSHSetting
  features : Option (List Nat)
  init : Option Callback
  open_connection : Option Callback
  close_connection : Option Callback
  query_feature : Option Callback
  call_feature : Option Callback
  send_keystrokes : Option Callback
  get_plugin_screenshot : Option Callback
  deriving DecidableEq, Repr

/-- The static `remmina_plugin` (lines 119-138).  `GETTEXT_PACKAGE` is a
build-time macro defined outside the two source files, so it is a
parameter. -/
def remmina_plugin (GETTEXT_PACKAGE : String) : RemminaProtocolPlugin :=
  { type := RemminaPluginType.REMMINA_PLUGIN_TYPE_PROTOCOL
    name := PLUGIN_NAME
    description := PLUGIN_DESCRIPTION
    domain := GETTEXT_PACKAGE
    version := PLUGIN_VERSION
    icon_name := PLUGIN_APPICON
    icon_name_ssh := PLUGIN_APPICON
    basic_settings := some remmina_plugin_folder_basic_settings
    advanced_settings := none
    ssh_setting := RemminaProtocolSSHSetting.REMMINA_PROTOCOL_SSH_SETTING_NONE
    features := none
    init := some Callback.remmina_plugin_folder_init
    open_connection := some Callback.remmina_plugin_folder_open_connection
    close_connection := some Callback.remmina_plugin_folder_close_connection
    query_feature := none
    call_feature := none
    send_keystrokes := none
    get_plugin_screenshot := none }

/-! ## The host service table and the execution trace -/

/-- The members of `RemminaPluginService` that return a value to the plugin.
The members that return `void` (`log_printf`, `protocol_plugin_set_error`,
`protocol_plugin_signal_connection_opened`,
`protocol_plugin_signal_connection_closed`) appear in the trace only. -/
structure RemminaPluginService where
  register_plugin : RemminaProtocolPlugin → gboolean
  protocol_plugin_get_file : RemminaProtocolWidget → RemminaFile
  file_get_string : RemminaFile → String → gchar_ptr

/-- The file-scope state of remmina_plugin.c: the static pointer
`remmina_plugin_service` (line 40), NULL until `remmina_plugin_entry`. -/
structure Globals where
  remmina_plugin_service : Option RemminaPluginService

/-- The state at program start (line 40). -/
def Globals.initial : Globals := ⟨none⟩

/-- One observable step: a call out of the plugin with its arguments, or the
assignment to the static `remmina_plugin_service` with the value stored. -/
inductive Event
  | TRACE_CALL (func : String)
  | store_remmina_plugin_service (service : RemminaPluginService)
  | register_plugin (plugin : RemminaProtocolPlugin)
  | log_printf (format : String) (args : List String)
  | protocol_plugin_get_file (gp : RemminaProtocolWidget)
  | file_get_string (remminafile : RemminaFile) (setting : String)
  | g_strdup (str : gchar_ptr)
  | g_spawn_async (args : SpawnArgs)
  | g_free (mem : gchar_ptr)
  | protocol_plugin_signal_connection_opened (gp : RemminaProtocolWidget)
  | protocol_plugin_set_error (gp : RemminaProtocolWidget) (format : String) (args : List String)
  | protocol_plugin_signal_connection_closed (gp : RemminaProtocolWidget)

/-- The ways a run can end without returning. -/
inductive Fault
  | null_dereference
  deriving DecidableEq, Repr

/-- The result of running a piece of the plugin: the steps it made, in
order, and then its value, or the fault that stopped it. -/
structure Run (α : Type) where
  trace : List Event
  result : Except Fault α

/-- A run that makes no step and yields `a`. -/
def Run.pure {α : Type} (a : α) : Run α := ⟨[], .ok a⟩

/-- Sequencing: the steps of `m`, then those of `f` on its value; a fault in
`m` ends the run there. -/
def Run.bind {α β : Type} (m : Run α) (f : α → Run β) : Run β :=
  match m.result with
  | .error e => ⟨m.trace, .error e⟩
  | .ok a => ⟨m.trace ++ (f a).trace, (f a).result⟩

instance : Monad Run where
  pure := Run.pure
  bind := Run.bind

/-- One step with no value. -/
def emit (e : Event) : Run Unit := ⟨[e], .ok ()⟩

/-- A read through a pointer: a fault when it is NULL. -/
def deref {α : Type} (p : Option α) : Run α :=
  match p with
  | none => ⟨[], .error Fault.null_dereference⟩
  | some a => ⟨[], .ok a⟩

/-- The Remmina macro `TRACE_CALL(__func__)`: kept as a step of its own, it
takes no part in the control flow. -/
def TRACE_CALL (func : String) : Run Unit := emit (Event.TRACE_CALL func)

/-- The loop of lines 83-85: `g_free` on every slot below `argc`. -/
def free_strings : List gchar_ptr → Run Unit
  | [] => Run.pure ()
  | p :: rest => Run.bind (emit (Event.g_free p)) (fun _ => free_strings rest)

/-- The macro `GET_PLUGIN_STRING(value)` (lines 70-71):
`g_strdup(remmina_plugin_service->file_get_string(remminafile, value))`. -/
def GET_PLUGIN_STRING (g : Globals) (remminafile : RemminaFile) (value : String) :
    Run gchar_ptr := do
  let service ← deref g.remmina_plugin_service
  emit (Event.file_get_string remminafile value)
  let str := service.file_get_string remminafile value
  emit (Event.g_strdup str)
  return g_strdup str

/-! ## The callbacks (lines 59-101) and the entry point (lines 140-148) -/

/-- The function `remmina_plugin_folder_open_connection` (lines 60-93).
`argv` holds the slots written so far, so `argc` is its length. -/
def remmina_plugin_folder_open_connection (glib : GLib) (g : Globals)
    (gp : RemminaProtocolWidget) : Run gboolean := do
  TRACE_CALL "remmina_plugin_folder_open_connection"
  let service ← deref g.remmina_plugin_service
  emit (Event.log_printf "[%s] Plugin open connection\n" [PLUGIN_NAME])
  emit (Event.protocol_plugin_get_file gp)
  let remminafile := service.protocol_plugin_get_file gp
  -- Define command line arguments
  let argv : List gchar_ptr := []
  let launcher ← GET_PLUGIN_STRING g remminafile "launcher"
  let argv := argv ++ [launcher]
  let server ← GET_PLUGIN_STRING g remminafile "server"
  let argv := argv ++ [server]
  let argv := argv ++ [none]
  -- Spawn external process
  let args : SpawnArgs := ⟨none, argv, none, G_SPAWN_SEARCH_PATH⟩
  emit (Event.g_spawn_async args)
  let spawned := glib.g_spawn_async args
  let ret := spawned.ret
  let error := spawned.error
  -- Free strings
  free_strings argv
  if ret ≠ 0 then
    emit (Event.protocol_plugin_signal_connection_opened gp)
  else
    let e ← deref error
    emit (Event.protocol_plugin_set_error gp "%s" [e.message])
  return TRUE

/-- The function `remmina_plugin_folder_close_connection` (lines 96-101). -/
def remmina_plugin_folder_close_connection (g : Globals)
    (gp : RemminaProtocolWidget) : Run gboolean := do
  TRACE_CALL "remmina_plugin_folder_close_connection"
  let _service ← deref g.remmina_plugin_service
  emit (Event.log_printf "[%s] Plugin close connection\n" [PLUGIN_NAME])
  emit (Event.protocol_plugin_signal_connection_closed gp)
  return FALSE

/-- The function `remmina_plugin_entry` (lines 140-148): the run, and the
file-scope state it leaves. -/
def remmina_plugin_entry (GETTEXT_PACKAGE : String) (_g : Globals)
    (service : RemminaPluginService) : Run gboolean × Globals :=
  let g : Globals := ⟨some service⟩
  let run : Run gboolean := do
    TRACE_CALL "remmina_plugin_entry"
    emit (Event.store_remmina_plugin_service service)
    emit (Event.register_plugin (remmina_plugin GETTEXT_PACKAGE))
    if service.register_plugin (remmina_plugin GETTEXT_PACKAGE) = 0 then
      return FALSE
    return TRUE
  (run, g)

/-! ## Reading a trace -/

/-- The `g_spawn_async` calls of a trace, in order. -/
def spawn_calls : List Event → List SpawnArgs
  | [] => []
  | Event.g_spawn_async args :: rest => args :: spawn_calls rest
  | _ :: rest => spawn_calls rest

/-- The slot `argv[0]` of a spawn call (NULL when no slot was written). -/
def SpawnArgs.argv0 (args : SpawnArgs) : gchar_ptr :=
  match args.argv with
  | [] => none
  | p :: _ => p

/-- How many times the trace signals the connection as opened. -/
def opened_count : List Event → Nat
  | [] => 0
  | Event.protocol_plugin_signal_connection_opened _ :: rest => opened_count rest + 1
  | _ :: rest => opened_count rest

/-- How many times the trace signals the connection as closed. -/
def closed_count : List Event → Nat
  | [] => 0
  | Event.protocol_plugin_signal_connection_closed _ :: rest => closed_count rest + 1
  | _ :: rest => closed_count rest

/-- How many times the trace calls `register_plugin` with `plugin`. -/
def register_count (plugin : RemminaProtocolPlugin) : List Event → Nat
  | [] => 0
  | Event.register_plugin p :: rest =>
    (if p = plugin then 1 else 0) + register_count plugin rest
  | _ :: rest => register_count plugin rest

/-- How many `register_plugin` calls the trace makes, whatever the argument. -/
def register_calls : List Event → Nat
  | [] => 0
  | Event.register_plugin _ :: rest => register_calls rest + 1
  | _ :: rest => register_calls rest

/-- Expansion of a printf-style format over string arguments, for the two
directives that occur with string arguments: `%s` takes the next argument
whole, `%%` is a percent sign; every other character is copied.  This is
the C library's behaviour behind the host's variadic `log_printf` and
`protocol_plugin_set_error`, not code of the plugin. -/
def format_chars : List Char → List String → List Char
  | [], _ => []
  | '%' :: 's' :: rest, a :: args => a.data ++ format_chars rest args
  | '%' :: '%' :: rest, args => '%' :: format_chars rest args
  | c :: rest, args => c :: format_chars rest args

/-- The text a printf-style call produces. -/
def format_text (format : String) (args : List String) : String :=
  String.mk (format_chars format.data args)

/-- The error texts the trace reports through `protocol_plugin_set_error`,
in order. -/
def reported_errors : List Event → List String
  | [] => []
  | Event.protocol_plugin_set_error _ format args :: rest =>
    format_text format args :: reported_errors rest
  | _ :: rest => reported_errors rest

/-! ## Concrete collaborators -/

/-- The file-scope state once `remmina_plugin_entry` has stored `service`. -/
def loaded (service : RemminaPluginService) : Globals := ⟨some service⟩

/-- A host whose profile holds the given "launcher" and "server" values and
nothing else, and whose `register_plugin` answers `registered`. -/
def sample_service (launcher server : gchar_ptr) (registered : gboolean) :
    RemminaPluginService :=
  { register_plugin := fun _ => registered
    protocol_plugin_get_file := fun gp => gp + 100
    file_get_string := fun _ setting =>
      if setting = "launcher" then launcher
      else if setting = "server" then server
      else none }

/-- A spawn call that always succeeds with child 4242. -/
def spawn_accepting : GLib := ⟨fun _ => ⟨TRUE, some 4242, none⟩⟩

/-- A spawn call that always fails with the error `e`. -/
def spawn_failing (e : GError) : GLib := ⟨fun _ => ⟨FALSE, none, some e⟩⟩

/-- A spawn call that rejects an empty argument vector the way a GLib
precondition check does (`g_return_val_if_fail`: FALSE is returned and
`*error` is left untouched), and accepts every other request. -/
def spawn_rejecting_empty : GLib :=
  ⟨fun args =>
    match argv_strings args.argv with
    | [] => ⟨FALSE, none, none⟩
    | _ :: _ => ⟨TRUE, some 4242, none⟩⟩

/-! ## The shape of an `open_connection` run -/

/-- The request `remmina_plugin_folder_open_connection` hands to
`g_spawn_async` (lines 76-81), in terms of the stored values. -/
def open_connection_args (service : RemminaPluginService) (gp : RemminaProtocolWidget) :
    SpawnArgs :=
  ⟨none,
   [service.file_get_string (service.protocol_plugin_get_file gp) "launcher",
    service.file_get_string (service.protocol_plugin_get_file gp) "server",
    none],
   none, G_SPAWN_SEARCH_PATH⟩

/-- The steps of lines 61-85, which every run makes before it looks at the
return value of the spawn call. -/
def open_connection_steps (service : RemminaPluginService) (gp : RemminaProtocolWidget) :
    List Event :=
  [ Event.TRACE_CALL "remmina_plugin_folder_open_connection",
    Event.log_printf "[%s] Plugin open connection\n" [PLUGIN_NAME],
    Event.protocol_plugin_get_file gp,
    Event.file_get_string (service.protocol_plugin_get_file gp) "launcher",
    Event.g_strdup (service.file_get_string (service.protocol_plugin_get_file gp) "launcher"),
    Event.file_get_string (service.protocol_plugin_get_file gp) "server",
    Event.g_strdup (service.file_get_string (service.protocol_plugin_get_file gp) "server"),
    Event.g_spawn_async (open_connection_args service gp),
    Event.g_free (service.file_get_string (service.protocol_plugin_get_file gp) "launcher"),
    Event.g_free (service.file_get_string (service.protocol_plugin_get_file gp) "server"),
    Event.g_free none ]

/-! ## Lemmas -/

/-- Duplicating a string pointer changes neither NULL nor the characters. -/
theorem g_strdup_eq (p : gchar_ptr) : g_strdup p = p := by
  cases p <;> rfl

/-- The format "%s" with one argument expands to that argument, whatever
characters it holds. -/
theorem format_text_percent_s (m : String) : format_text "%s" [m] = m := by
  simp [format_text, format_chars]

/-- After `remmina_plugin_entry` the file-scope state is `loaded service`. -/
theorem remmina_plugin_entry_globals (GETTEXT_PACKAGE : String) (g : Globals)
    (service : RemminaPluginService) :
    (remmina_plugin_entry GETTEXT_PACKAGE g service).2 = loaded service := rfl

/-- Normal form of a run of `remmina_plugin_folder_open_connection` in a
loaded plugin: the common steps, then one of the three endings. -/
theorem open_connection_eq (glib : GLib) (service : RemminaPluginService)
    (gp : RemminaProtocolWidget) :
    remmina_plugin_folder_open_connection glib (loaded service) gp =
      if (glib.g_spawn_async (open_connection_args service gp)).ret ≠ 0 then
        ⟨open_connection_steps service gp
          ++ [Event.protocol_plugin_signal_connection_opened gp], .ok TRUE⟩
      else
        match (glib.g_spawn_async (open_connection_args service gp)).error with
        | none => ⟨open_connection_steps service gp, .error Fault.null_dereference⟩
        | some e =>
          ⟨open_connection_steps service gp
            ++ [Event.protocol_plugin_set_error gp "%s" [e.message]], .ok TRUE⟩ := by
  simp only [remmina_plugin_folder_open_connection, GET_PLUGIN_STRING, loaded, TRACE_CALL,
    deref, emit, bind, Run.bind, pure, Run.pure, free_strings, g_strdup_eq,
    open_connection_args, open_connection_steps, List.nil_append, List.cons_append,
    List.append_nil]
  generalize glib.g_spawn_async _ = sp
  by_cases hr : sp.ret = 0
  · cases he : sp.error <;> simp [hr]
  · simp [hr]

/-- The common steps hold exactly one spawn call, the request of lines 76-81. -/
theorem spawn_calls_steps (service : RemminaPluginService) (gp : RemminaProtocolWidget) :
    spawn_calls (open_connection_steps service gp) = [open_connection_args service gp] := rfl

/-- Every run of `open_connection` in a loaded plugin makes exactly one spawn
call, with the request `open_connection_args`. -/
theorem open_connection_spawn_calls (glib : GLib) (service : RemminaPluginService)
    (gp : RemminaProtocolWidget) :
    spawn_calls (remmina_plugin_folder_open_connection glib (loaded service) gp).trace
      = [open_connection_args service gp] := by
  rw [open_connection_eq]
  split
  · rfl
  · split <;> rfl

/-- A run whose spawn call returned a true value: one opened signal, no
error report, return value TRUE. -/
theorem open_connection_spawn_success (glib : GLib) (service : RemminaPluginService)
    (gp : RemminaProtocolWidget)
    (hret : (glib.g_spawn_async (open_connection_args service gp)).ret ≠ 0) :
    remmina_plugin_folder_open_connection glib (loaded service) gp
      = ⟨open_connection_steps service gp
          ++ [Event.protocol_plugin_signal_connection_opened gp], .ok TRUE⟩ := by
  rw [open_connection_eq, if_pos hret]

/-- A run whose spawn call returned FALSE and set the error `e`: one error
report, no opened signal, return value TRUE. -/
theorem open_connection_spawn_failure (glib : GLib) (service : RemminaPluginService)
    (gp : RemminaProtocolWidget) (e : GError)
    (hret : (glib.g_spawn_async (open_connection_args service gp)).ret = 0)
    (herr : (glib.g_spawn_async (open_connection_args service gp)).error = some e) :
    remmina_plugin_folder_open_connection glib (loaded service) gp
      = ⟨open_connection_steps service gp
          ++ [Event.protocol_plugin_set_error gp "%s" [e.message]], .ok TRUE⟩ := by
  rw [open_connection_eq, if_neg (by simpa using hret), herr]

/-- A run whose spawn call returned FALSE and left the error NULL: the read
of `error->message` at line 90 faults, after the common steps. -/
theorem open_connection_spawn_rejected (glib : GLib) (service : RemminaPluginService)
    (gp : RemminaProtocolWidget)
    (hret : (glib.g_spawn_async (open_connection_args service gp)).ret = 0)
    (herr : (glib.g_spawn_async (open_connection_args service gp)).error = none) :
    remmina_plugin_folder_open_connection glib (loaded service) gp
      = ⟨open_connection_steps service gp, .error Fault.null_dereference⟩ := by
  rw [open_connection_eq, if_neg (by simpa using hret), herr]

/-- Whenever the spawn call succeeded, or failed with an error object, the
run reports exactly one of the two outcomes and returns TRUE. -/
theorem open_connection_reports_once (glib : GLib) (service : RemminaPluginService)
    (gp : RemminaProtocolWidget)
    (h : (glib.g_spawn_async (open_connection_args service gp)).ret ≠ 0
      ∨ (glib.g_spawn_async (open_connection_args service gp)).error ≠ none) :
    opened_count (remmina_plugin_folder_open_connection glib (loaded service) gp).trace
        + (reported_errors
            (remmina_plugin_folder_open_connection glib (loaded service) gp).trace).length = 1
    ∧ (remmina_plugin_folder_open_connection glib (loaded service) gp).result = .ok TRUE := by
  by_cases hret : (glib.g_spawn_async (open_connection_args service gp)).ret = 0
  · cases herr : (glib.g_spawn_async (open_connection_args service gp)).error with
    | none => simp [hret, herr] at h
    | some e =>
      rw [open_connection_spawn_failure glib service gp e hret herr]
      exact ⟨rfl, rfl⟩
  · rw [open_connection_spawn_success glib service gp hret]
    exact ⟨rfl, rfl⟩

/-- The function `remmina_plugin_folder_close_connection` returns FALSE for
every loaded service and every widget. -/
theorem close_connection_returns_false (service : RemminaPluginService)
    (gp : RemminaProtocolWidget) :
    (remmina_plugin_folder_close_connection (loaded service) gp).result = .ok FALSE := rfl

/-! ## Launcher resolution (C1, C2) and the argument vector (C3) -/

/-- C1, counterexample: with the "launcher" value stored as the empty string
the slot `argv[0]` handed to the spawn call is the empty string, and with the
value absent it is NULL; in neither case is it "xdg-open", the identifier of
the first entry of `launchers_list`. -/
theorem launcher_fallback_counterexample :
    launchers_list.head? = some (some "xdg-open")
    ∧ (spawn_calls (remmina_plugin_folder_open_connection spawn_accepting
          (loaded (sample_service (some "") (some "/tmp") TRUE)) 7).trace).map SpawnArgs.argv0
        = [some ""]
    ∧ (spawn_calls (remmina_plugin_folder_open_connection spawn_accepting
          (loaded (sample_service (some "") (some "/tmp") TRUE)) 7).trace).map SpawnArgs.argv0
        ≠ [some "xdg-open"]
    ∧ (spawn_calls (remmina_plugin_folder_open_connection spawn_rejecting_empty
          (loaded (sample_service none (some "/tmp") TRUE)) 7).trace).map SpawnArgs.argv0
        = [none]
    ∧ (spawn_calls (remmina_plugin_folder_open_connection spawn_rejecting_empty
          (loaded (sample_service none (some "/tmp") TRUE)) 7).trace).map SpawnArgs.argv0
        ≠ [some "xdg-open"] := by
  refine ⟨rfl, rfl, ?_, rfl, ?_⟩ <;> decide

/-- C1, amended: when the "launcher" value is the empty string,
`open_connection` makes one spawn call whose slot `argv[0]` is the empty
string itself, which is also the executable name the callee reads from the
vector; `launchers_list` is not consulted. -/
theorem launcher_empty_passed_as_stored (glib : GLib) (service : RemminaPluginService)
    (gp : RemminaProtocolWidget)
    (hlauncher :
      service.file_get_string (service.protocol_plugin_get_file gp) "launcher" = some "") :
    (spawn_calls (remmina_plugin_folder_open_connection glib (loaded service) gp).trace).map
        SpawnArgs.argv0 = [some ""]
    ∧ (spawn_calls (remmina_plugin_folder_open_connection glib (loaded service) gp).trace).map
        (fun args => (argv_strings args.argv).head?) = [some ""] := by
  rw [open_connection_spawn_calls]
  simp [open_connection_args, SpawnArgs.argv0, argv_strings, hlauncher]

/-- C1, amended, at the target "/tmp" and a spawn call that accepts. -/
theorem launcher_empty_passed_as_stored_witness :
    (spawn_calls (remmina_plugin_folder_open_connection spawn_accepting
        (loaded (sample_service (some "") (some "/tmp") TRUE)) 7).trace).map SpawnArgs.argv0
      = [some ""]
    ∧ (spawn_calls (remmina_plugin_folder_open_connection spawn_accepting
        (loaded (sample_service (some "") (some "/tmp") TRUE)) 7).trace).map
        (fun args => (argv_strings args.argv).head?) = [some ""] :=
  launcher_empty_passed_as_stored spawn_accepting
    (sample_service (some "") (some "/tmp") TRUE) 7 rfl

/-- C2: for every non-empty string `L` stored as the "launcher" value, in the
table or not, `open_connection` makes one spawn call, its slot `argv[0]` is
`L`, and the executable name the callee reads from the vector is `L`. -/
theorem launcher_passed_verbatim (glib : GLib) (service : RemminaPluginService)
    (gp : RemminaProtocolWidget) (L : String) (_hL : L ≠ "")
    (hlauncher :
      service.file_get_string (service.protocol_plugin_get_file gp) "launcher" = some L) :
    (spawn_calls (remmina_plugin_folder_open_connection glib (loaded service) gp).trace).map
        SpawnArgs.argv0 = [some L]
    ∧ (spawn_calls (remmina_plugin_folder_open_connection glib (loaded service) gp).trace).map
        (fun args => (argv_strings args.argv).head?) = [some L] := by
  rw [open_connection_spawn_calls]
  simp [open_connection_args, SpawnArgs.argv0, argv_strings, hlauncher]

/-- C2 at the launcher "thunar", which is not an identifier of the table. -/
theorem launcher_passed_verbatim_witness :
    some "thunar" ∉ launchers_list
    ∧ (spawn_calls (remmina_plugin_folder_open_connection spawn_accepting
          (loaded (sample_service (some "thunar") (some "/tmp") TRUE)) 7).trace).map
          SpawnArgs.argv0 = [some "thunar"]
    ∧ (spawn_calls (remmina_plugin_folder_open_connection spawn_accepting
          (loaded (sample_service (some "thunar") (some "/tmp") TRUE)) 7).trace).map
          (fun args => (argv_strings args.argv).head?) = [some "thunar"] :=
  ⟨by decide,
   launcher_passed_verbatim spawn_accepting
      (sample_service (some "thunar") (some "/tmp") TRUE) 7 "thunar" (by decide) rfl⟩

/-- C3: for every launcher string `L` and target string `T` read from the
"launcher" and "server" values, `open_connection` makes one spawn call; its
array is `L`, `T`, NULL, so the vector before the terminator has exactly the
two elements `L` and `T` in this order. -/
theorem argument_vector_is_launcher_then_target (glib : GLib)
    (service : RemminaPluginService) (gp : RemminaProtocolWidget) (L T : String)
    (hlauncher :
      service.file_get_string (service.protocol_plugin_get_file gp) "launcher" = some L)
    (hserver :
      service.file_get_string (service.protocol_plugin_get_file gp) "server" = some T) :
    spawn_calls (remmina_plugin_folder_open_connection glib (loaded service) gp).trace
        = [⟨none, [some L, some T, none], none, G_SPAWN_SEARCH_PATH⟩]
    ∧ (spawn_calls (remmina_plugin_folder_open_connection glib (loaded service) gp).trace).map
        (fun args => argv_strings args.argv) = [[L, T]] := by
  rw [open_connection_spawn_calls]
  simp [open_connection_args, argv_strings, hlauncher, hserver]

/-- C3 at the launcher "nautilus" and the target "/home/user/My Documents". -/
theorem argument_vector_is_launcher_then_target_witness :
    spawn_calls (remmina_plugin_folder_open_connection spawn_accepting
        (loaded (sample_service (some "nautilus") (some "/home/user/My Documents") TRUE))
        7).trace
      = [⟨none, [some "nautilus", some "/home/user/My Documents", none], none,
          G_SPAWN_SEARCH_PATH⟩]
    ∧ (spawn_calls (remmina_plugin_folder_open_connection spawn_accepting
        (loaded (sample_service (some "nautilus") (some "/home/user/My Documents") TRUE))
        7).trace).map (fun args => argv_strings args.argv)
      = [["nautilus", "/home/user/My Documents"]] :=
  argument_vector_is_launcher_then_target spawn_accepting
    (sample_service (some "nautilus") (some "/home/user/My Documents") TRUE) 7
    "nautilus" "/home/user/My Documents" rfl rfl

/-! ## Reporting the outcome (C4, C5, C6, C9) -/

/-- C4, at the failing input: the "launcher" value is absent, the spawn call
rejects the empty vector (FALSE returned, error left NULL), and the run
reports neither outcome: no opened signal and no error. -/
theorem rejected_spawn_reports_neither :
    (spawn_rejecting_empty.g_spawn_async
        (open_connection_args (sample_service none (some "/tmp") TRUE) 7)).ret = FALSE
    ∧ opened_count (remmina_plugin_folder_open_connection spawn_rejecting_empty
        (loaded (sample_service none (some "/tmp") TRUE)) 7).trace = 0
    ∧ reported_errors (remmina_plugin_folder_open_connection spawn_rejecting_empty
        (loaded (sample_service none (some "/tmp") TRUE)) 7).trace = [] :=
  ⟨rfl, rfl, rfl⟩

/-- C5: whenever the spawn call returns FALSE with an error whose message is
`m`, `open_connection` calls `protocol_plugin_set_error` once, with the
format "%s" and the argument `m`, so the reported text is exactly `m`; and
it does not signal the connection as opened. -/
theorem spawn_failure_message_passed_through (glib : GLib) (service : RemminaPluginService)
    (gp : RemminaProtocolWidget) (e : GError)
    (hret : (glib.g_spawn_async (open_connection_args service gp)).ret = 0)
    (herr : (glib.g_spawn_async (open_connection_args service gp)).error = some e) :
    (remmina_plugin_folder_open_connection glib (loaded service) gp).trace
        = open_connection_steps service gp
            ++ [Event.protocol_plugin_set_error gp "%s" [e.message]]
    ∧ reported_errors (remmina_plugin_folder_open_connection glib (loaded service) gp).trace
        = [e.message]
    ∧ opened_count (remmina_plugin_folder_open_connection glib (loaded service) gp).trace
        = 0 := by
  rw [open_connection_spawn_failure glib service gp e hret herr]
  refine ⟨rfl, ?_, rfl⟩
  simp [open_connection_steps, reported_errors, format_text_percent_s]

/-- C5 at a message that holds percent signs and a directive. -/
theorem spawn_failure_message_passed_through_witness :
    (remmina_plugin_folder_open_connection
        (spawn_failing ⟨1, 8, "Failed to execute child process “100%s” (100% %d)"⟩)
        (loaded (sample_service (some "100%s") (some "/tmp") TRUE)) 7).trace
      = open_connection_steps (sample_service (some "100%s") (some "/tmp") TRUE) 7
          ++ [Event.protocol_plugin_set_error 7 "%s"
                ["Failed to execute child process “100%s” (100% %d)"]]
    ∧ reported_errors (remmina_plugin_folder_open_connection
        (spawn_failing ⟨1, 8, "Failed to execute child process “100%s” (100% %d)"⟩)
        (loaded (sample_service (some "100%s") (some "/tmp") TRUE)) 7).trace
      = ["Failed to execute child process “100%s” (100% %d)"]
    ∧ opened_count (remmina_plugin_folder_open_connection
        (spawn_failing ⟨1, 8, "Failed to execute child process “100%s” (100% %d)"⟩)
        (loaded (sample_service (some "100%s") (some "/tmp") TRUE)) 7).trace
      = 0 :=
  spawn_failure_message_passed_through
    (spawn_failing ⟨1, 8, "Failed to execute child process “100%s” (100% %d)"⟩)
    (sample_service (some "100%s") (some "/tmp") TRUE) 7
    ⟨1, 8, "Failed to execute child process “100%s” (100% %d)"⟩ rfl rfl

/-- C6, at the failing input: the "launcher" value is absent, the spawn call
rejects the empty vector and leaves the error NULL, and the run ends in a
read through the NULL error pointer instead of handing the host an outcome. -/
theorem rejected_spawn_null_dereference :
    (spawn_rejecting_empty.g_spawn_async
        (open_connection_args (sample_service none (some "/tmp") TRUE) 7)).error = none
    ∧ (remmina_plugin_folder_open_connection spawn_rejecting_empty
        (loaded (sample_service none (some "/tmp") TRUE)) 7).result
      = .error Fault.null_dereference :=
  ⟨rfl, rfl⟩

/-- C9, at the failing input: with both values absent and the spawn request
rejected, `open_connection` does not return TRUE: it does not return. -/
theorem rejected_spawn_no_return_value :
    (remmina_plugin_folder_open_connection spawn_rejecting_empty
        (loaded (sample_service none none TRUE)) 7).result ≠ .ok TRUE
    ∧ ∀ ret : gboolean,
        (remmina_plugin_folder_open_connection spawn_rejecting_empty
          (loaded (sample_service none none TRUE)) 7).result ≠ .ok ret := by
  have h : (remmina_plugin_folder_open_connection spawn_rejecting_empty
        (loaded (sample_service none none TRUE)) 7).result
      = .error Fault.null_dereference := rfl
  rw [h]
  exact ⟨by simp, fun ret => by simp⟩

/-! ## Closing (C7), the table (C8) and registration (C10) -/

/-- C7: for every loaded service and every connection widget, whatever
happened to the connection before, `close_connection` makes exactly three
steps: the trace macro, one log line and one closed signal; so it signals
closed exactly once, reports no error and makes no spawn call (there is no
kill call in the plugin at all), and it completes. -/
theorem close_connection_signals_closed_once (service : RemminaPluginService)
    (gp : RemminaProtocolWidget) :
    (remmina_plugin_folder_close_connection (loaded service) gp).trace
        = [ Event.TRACE_CALL "remmina_plugin_folder_close_connection",
            Event.log_printf "[%s] Plugin close connection\n" [PLUGIN_NAME],
            Event.protocol_plugin_signal_connection_closed gp ]
    ∧ closed_count (remmina_plugin_folder_close_connection (loaded service) gp).trace = 1
    ∧ reported_errors (remmina_plugin_folder_close_connection (loaded service) gp).trace = []
    ∧ spawn_calls (remmina_plugin_folder_close_connection (loaded service) gp).trace = []
    ∧ ∃ ret, (remmina_plugin_folder_close_connection (loaded service) gp).result = .ok ret :=
  ⟨rfl, rfl, rfl, rfl, FALSE, rfl⟩

/-- C8: `launchers_list` reads as five complete {identifier, display name}
pairs followed by the terminator and nothing else; so it has at least one
entry, no identifier occurs twice, and the first entry is "xdg-open",
"Automatically detected". -/
theorem launchers_list_invariant :
    launcher_entries launchers_list
        = some [ ⟨"xdg-open", "Automatically detected"⟩,
                 ⟨"gnome-open", "Open for GNOME"⟩,
                 ⟨"nautilus", "Nautilus"⟩,
                 ⟨"pcmanfm", "PCManFM"⟩,
                 ⟨"dolphin", "Dolphin Browser"⟩ ]
    ∧ (∃ entries, launcher_entries launchers_list = some entries
        ∧ 1 ≤ entries.length
        ∧ launchers_list.length = 2 * entries.length + 1
        ∧ (entries.map LauncherEntry.identifier).Nodup
        ∧ entries.head? = some ⟨"xdg-open", "Automatically detected"⟩) := by
  refine ⟨rfl, _, rfl, ?_, ?_, ?_, rfl⟩ <;> decide

/-- C10: for every service table, `remmina_plugin_entry` stores the supplied
service in the static pointer and then calls `register_plugin` once, with
the FOLDER plugin definition; it returns TRUE when `register_plugin`
returned a value other than zero and FALSE when it returned zero; the store
comes before the call and the static pointer holds the service afterwards,
in both cases. -/
theorem plugin_entry_registers_once (GETTEXT_PACKAGE : String) (g : Globals)
    (service : RemminaPluginService) :
    (remmina_plugin_entry GETTEXT_PACKAGE g service).1.trace
        = [ Event.TRACE_CALL "remmina_plugin_entry",
            Event.store_remmina_plugin_service service,
            Event.register_plugin (remmina_plugin GETTEXT_PACKAGE) ]
    ∧ register_calls (remmina_plugin_entry GETTEXT_PACKAGE g service).1.trace = 1
    ∧ (remmina_plugin GETTEXT_PACKAGE).name = "FOLDER"
    ∧ (remmina_plugin_entry GETTEXT_PACKAGE g service).1.result
        = .ok (if service.register_plugin (remmina_plugin GETTEXT_PACKAGE) = 0
                then FALSE else TRUE)
    ∧ ((remmina_plugin_entry GETTEXT_PACKAGE g service).1.result = .ok TRUE
        ↔ service.register_plugin (remmina_plugin GETTEXT_PACKAGE) ≠ 0)
    ∧ (remmina_plugin_entry GETTEXT_PACKAGE g service).2.remmina_plugin_service
        = some service := by
  have hres : (remmina_plugin_entry GETTEXT_PACKAGE g service).1.result
      = .ok (if service.register_plugin (remmina_plugin GETTEXT_PACKAGE) = 0
              then FALSE else TRUE) := by
    simp only [remmina_plugin_entry, TRACE_CALL, emit, bind, Run.bind, pure, Run.pure]
    split <;> rfl
  have htrace : (remmina_plugin_entry GETTEXT_PACKAGE g service).1.trace
      = [ Event.TRACE_CALL "remmina_plugin_entry",
          Event.store_remmina_plugin_service service,
          Event.register_plugin (remmina_plugin GETTEXT_PACKAGE) ] := by
    simp only [remmina_plugin_entry, TRACE_CALL, emit, bind, Run.bind, pure, Run.pure]
    split <;> rfl
  refine ⟨htrace, ?_, rfl, hres, ?_, rfl⟩
  · rw [htrace]
    rfl
  · rw [hres]
    by_cases h : service.register_plugin (remmina_plugin GETTEXT_PACKAGE) = 0
    · simp [h, TRUE, FALSE]
    · simp [h]

end RemminaPluginFolder
